import Mathlib

/-!
Verification of the FireTV hybrid recommendation pipeline
(`src4/firetv_integration_fixed.py`).

The development shallowly embeds the cache layer (`CacheManager`), the
collaborative-filtering engine (`CollaborativeFilteringEngine`), the content
scorers and the cascading orchestrator
(`FireTVRecommendationService.generate_recommendations`).

Modelling conventions:
* Python numeric ratings and scores are embedded as `ℚ`; the Pearson and
  cosine similarity values, which involve a real square root, live in `ℝ`.
* Python dicts are embedded as association lists (or as functions where only
  per-key behaviour matters); Python sets of ids as `Finset`/list membership.
* External collaborators (PostgreSQL, the TMDB API, the SentenceTransformer
  model) are abstracted as parameters; every piece of logic that lives in the
  repository itself is translated directly from the source.
* `datetime.now()` timestamps are embedded as rational numbers of hours.
-/

namespace FireTV

/-! ## Python string containment

`invalidate_user_cache` uses Python's `sub in s` substring test on cache
keys; we embed it character-for-character. -/

/-- `prefixOfChars n h` is Python's "string `n` is a prefix of `h`". -/
def prefixOfChars : List Char → List Char → Bool
  | [], _ => true
  | _ :: _, [] => false
  | a :: as, b :: bs => a = b && prefixOfChars as bs

/-- `substrAux n h` is Python's `n in h` on character lists. -/
def substrAux (n : List Char) : List Char → Bool
  | [] => prefixOfChars n []
  | b :: t => prefixOfChars n (b :: t) || substrAux n t

/-- Python's `needle in hay` substring test on strings. -/
def pySubstr (needle hay : String) : Bool :=
  substrAux needle.toList hay.toList

/-! ## CacheManager (`firetv_integration_fixed.py` lines 50–366)

A cache entry couples the cached payload with its creation timestamp
(`{'data': ..., 'timestamp': datetime.now()}`). -/

/-- A cache entry: `{'data': v, 'timestamp': t}` with `t` in hours. -/
structure CacheEntry (α : Type) where
  data : α
  timestamp : ℚ
  deriving Repr, DecidableEq

/-- The `tmdb_cache` dict of `CacheManager`, embedded per key. -/
def TmdbCache (α : Type) := String → Option (CacheEntry α)

/-- `CacheManager.__init__`: `self.ttl = timedelta(hours=ttl_hours)` (default
24); we keep the TTL in hours. -/
def defaultTtlHours : ℚ := 24

/-- `CacheManager._is_cache_valid`: `datetime.now() - timestamp < self.ttl`. -/
def is_cache_valid (ttl now timestamp : ℚ) : Bool :=
  now - timestamp < ttl

/-- The cache key built by `get_tmdb_movie`: `f"movie_{movie_id}"`. -/
def movieKey (movie_id : ℤ) : String :=
  "movie_" ++ toString movie_id

/-- The cache-write performed by `get_tmdb_movie` after a successful API
fetch: `self.tmdb_cache[cache_key] = {'data': movie_data, 'timestamp':
datetime.now()}`. -/
def tmdb_put {α : Type} (cache : TmdbCache α) (movie_id : ℤ) (v : α)
    (now : ℚ) : TmdbCache α :=
  fun k => if k = movieKey movie_id then some ⟨v, now⟩ else cache k

/-- The cache-lookup half of `get_tmdb_movie`: if the key is present and
`_is_cache_valid` holds, the cached data is returned; otherwise the method
falls through to the network fetch, i.e. the lookup reports a miss
(`none`). -/
def tmdb_lookup {α : Type} (cache : TmdbCache α) (ttl : ℚ) (movie_id : ℤ)
    (now : ℚ) : Option α :=
  match cache (movieKey movie_id) with
  | some entry => if is_cache_valid ttl now entry.timestamp then some entry.data else none
  | none => none

/-! ### User-keyed caches and `invalidate_user_cache`

`user_data_cache` and `embedding_cache` are Python dicts; `invalidate`
iterates their key sets, so we embed them as association lists with unique
keys (insertion order is irrelevant to the claims). -/

/-- The key built by `get_user_data`: `f"user_{username}"`. -/
def userDataKey (username : String) : String :=
  "user_" ++ username

/-- The key built by `get_user_embeddings`:
`f"user_emb_{user_id}_{self._generate_key(*movie_texts)}"`; the trailing MD5
digest is abstracted as an opaque string. -/
def userEmbKey (user_id : ℤ) (digest : String) : String :=
  "user_emb_" ++ toString user_id ++ "_" ++ digest

/-- The two user-keyed caches touched by `invalidate_user_cache`. -/
structure UserCaches (α : Type) where
  user_data_cache : List (String × CacheEntry α)
  embedding_cache : List (String × CacheEntry α)
  deriving Repr, DecidableEq

/-- The probe string used by `invalidate_user_cache`:
`f"user_emb_{username}"`. -/
def userEmbProbe (username : String) : String :=
  "user_emb_" ++ username

/-- `CacheManager.invalidate_user_cache(username)`: deletes the exact key
`f"user_{username}"` from `user_data_cache`, and every `embedding_cache` key
`k` with `f"user_emb_{username}" in k` (Python substring test). -/
def invalidate_user_cache {α : Type} (c : UserCaches α) (username : String) :
    UserCaches α where
  user_data_cache := c.user_data_cache.filter (fun kv => kv.1 ≠ userDataKey username)
  embedding_cache :=
    c.embedding_cache.filter (fun kv => ¬ pySubstr (userEmbProbe username) kv.1)

/-- `get_user_data_from_backend`: `user_id_map = {'anshul': 1, 'shikhar': 2,
'priyanshu': 3, 'shaurya': 4}` (line 704). -/
def user_id_map : List (String × ℤ) :=
  [("anshul", 1), ("shikhar", 2), ("priyanshu", 3), ("shaurya", 4)]

/-! ## CollaborativeFilteringEngine (lines 368–565)

`build_rating_matrix_from_db` pivots the `watched_movies` rows into a
user × item matrix and fills missing cells with `0` (`fillna(0)`), so a
rating of `0` means "unrated".  We embed the pivoted matrix as its row/column
labels plus the cell function. -/

/-- The pivoted, zero-filled rating matrix produced by
`build_rating_matrix_from_db`: `users` is `rating_matrix.index`, `items` is
`rating_matrix.columns`, and `rating u i` is the cell value (`0` when the
user has not rated the item). -/
structure RatingMatrix where
  users : List ℤ
  items : List ℤ
  rating : ℤ → ℤ → ℚ

/-- `CollaborativeFilteringEngine.__init__(min_common_items=3,
min_common_users=3)`. -/
structure CFEngine where
  min_common_items : ℕ := 3
  min_common_users : ℕ := 3

/-- Arithmetic mean of a list of rationals (`pandas.Series.mean` over the
selected entries; callers only take it on non-empty selections). -/
def qmean (l : List ℚ) : ℚ := l.sum / l.length

/-- `common_items = (user1_ratings > 0) & (user2_ratings > 0)`: the item
columns rated (non-zero) by both users, in column order. -/
def commonItems (M : RatingMatrix) (u1 u2 : ℤ) : List ℤ :=
  M.items.filter (fun i => 0 < M.rating u1 i ∧ 0 < M.rating u2 i)

/-- `common_users = (item1_ratings > 0) & (item2_ratings > 0)`: the user rows
that rated both items, in row order. -/
def commonUsers (M : RatingMatrix) (i1 i2 : ℤ) : List ℤ :=
  M.users.filter (fun u => 0 < M.rating u i1 ∧ 0 < M.rating u i2)

/-- `scipy.stats.pearsonr` on the two restricted rating vectors.  A
zero-variance input makes `pearsonr` return NaN, which the caller maps to
`0.0`; in this embedding the numerator is then `0` and division by the zero
denominator also yields `0`, so the NaN branch needs no separate case. -/
noncomputable def pearson (xs ys : List ℚ) : ℝ :=
  let mx := qmean xs
  let my := qmean ys
  let cov : ℚ := (List.zipWith (fun x y => (x - mx) * (y - my)) xs ys).sum
  let vx : ℚ := (xs.map (fun x => (x - mx) ^ 2)).sum
  let vy : ℚ := (ys.map (fun y => (y - my) ^ 2)).sum
  (cov : ℝ) / Real.sqrt ((vx : ℝ) * (vy : ℝ))

/-- `CollaborativeFilteringEngine.calculate_user_similarity` (lines
425–449). -/
noncomputable def calculate_user_similarity (e : CFEngine) (M : RatingMatrix)
    (user_id target_user_id : ℤ) : ℝ :=
  if user_id = target_user_id then 1
  else if user_id ∉ M.users ∨ target_user_id ∉ M.users then 0
  else
    let common := commonItems M user_id target_user_id
    if common.length < e.min_common_items then 0
    else
      pearson (common.map (M.rating user_id)) (common.map (M.rating target_user_id))

/-- `sklearn.metrics.pairwise.cosine_similarity` on two rating vectors; a
zero norm makes the code's NaN guard return `0.0`, which again coincides
with Lean's division by zero. -/
noncomputable def cosineSim (xs ys : List ℚ) : ℝ :=
  let dot : ℚ := (List.zipWith (fun x y => x * y) xs ys).sum
  let nx : ℚ := (xs.map (fun x => x ^ 2)).sum
  let ny : ℚ := (ys.map (fun y => y ^ 2)).sum
  (dot : ℝ) / (Real.sqrt (nx : ℝ) * Real.sqrt (ny : ℝ))

/-- `CollaborativeFilteringEngine.calculate_item_similarity` (lines
451–475). -/
noncomputable def calculate_item_similarity (e : CFEngine) (M : RatingMatrix)
    (item_id target_item_id : ℤ) : ℝ :=
  if item_id = target_item_id then 1
  else if item_id ∉ M.items ∨ target_item_id ∉ M.items then 0
  else
    let common := commonUsers M item_id target_item_id
    if common.length < e.min_common_users then 0
    else
      cosineSim (common.map (fun u => M.rating u item_id))
        (common.map (fun u => M.rating u target_item_id))

/-- `rating_matrix.loc[u][rating_matrix.loc[u] > 0].mean()`: mean of the
user's positive (actual) ratings. -/
def userMeanRating (M : RatingMatrix) (u : ℤ) : ℚ :=
  qmean ((M.items.map (M.rating u)).filter (fun r => 0 < r))

open Classical in
/-- `CollaborativeFilteringEngine.get_user_based_recommendations` (lines
477–520).  The Python `predictions` dict is returned as the list of its
insertions, in candidate order; `list.sort(key=..., reverse=True)` is a
stable descending sort, embedded as `List.insertionSort` with the
"greater-or-equal similarity" relation. -/
noncomputable def get_user_based_recommendations (e : CFEngine)
    (M : RatingMatrix) (user_id : ℤ) (candidate_movies : List ℤ)
    (k_neighbors : ℕ := 15) : List (ℤ × ℝ) :=
  if user_id ∉ M.users then []
  else
    let user_similarities :=
      (M.users.filter (fun o => o ≠ user_id)).filterMap (fun other =>
        let s := calculate_user_similarity e M user_id other
        if 0 < s then some (other, s) else none)
    let top_similar_users :=
      (List.insertionSort (fun a b : ℤ × ℝ => b.2 ≤ a.2) user_similarities).take
        k_neighbors
    if top_similar_users = [] then []
    else
      candidate_movies.filterMap (fun movie_id =>
        if movie_id ∈ M.items ∧ M.rating user_id movie_id = 0 then
          let contributors :=
            top_similar_users.filter (fun p => 0 < M.rating p.1 movie_id)
          let numerator :=
            (contributors.map (fun p =>
              p.2 * ((M.rating p.1 movie_id : ℝ) - (userMeanRating M p.1 : ℝ)))).sum
          let denominator := (contributors.map (fun p => |p.2|)).sum
          if 0 < denominator then
            some (movie_id,
              max 0 (min 10 ((userMeanRating M user_id : ℝ) + numerator / denominator)))
          else none
        else none)

open Classical in
/-- `CollaborativeFilteringEngine.get_item_based_recommendations` (lines
522–565), embedded with the same conventions. -/
noncomputable def get_item_based_recommendations (e : CFEngine)
    (M : RatingMatrix) (user_id : ℤ) (candidate_movies : List ℤ)
    (k_neighbors : ℕ := 15) : List (ℤ × ℝ) :=
  if user_id ∉ M.users then []
  else
    let rated_movies := M.items.filter (fun i => 0 < M.rating user_id i)
    if rated_movies = [] then []
    else
      candidate_movies.filterMap (fun movie_id =>
        if movie_id ∉ M.items ∨ 0 < M.rating user_id movie_id then none
        else
          let item_similarities :=
            rated_movies.filterMap (fun rated =>
              let s := calculate_item_similarity e M movie_id rated
              if 0 < s then some (rated, s) else none)
          let top_similar_items :=
            (List.insertionSort (fun a b : ℤ × ℝ => b.2 ≤ a.2)
              item_similarities).take k_neighbors
          if top_similar_items = [] then none
          else
            let numerator :=
              (top_similar_items.map (fun p =>
                p.2 * (M.rating user_id p.1 : ℝ))).sum
            let denominator := (top_similar_items.map (fun p => |p.2|)).sum
            if 0 < denominator then
              some (movie_id, max 0 (min 10 (numerator / denominator)))
            else none)

/-! ## Python `round`

`round(x, 4)` rounds to four decimal places with round-half-to-even
(banker's rounding). -/

/-- Python's `round(q)`: round half to even. -/
def pyRound (q : ℚ) : ℤ :=
  let f := ⌊q⌋
  let r := q - f
  if r < 1 / 2 then f
  else if 1 / 2 < r then f + 1
  else if Even f then f else f + 1

/-- Python's `round(q, 4)`. -/
def pyRound4 (q : ℚ) : ℚ := (pyRound (q * 10000) : ℚ) / 10000

/-! ## Data model of the service

Candidate movies are the TMDB dicts that reach the scorers; only the fields
the scorers read are kept (`overview`, `poster_path`, `release_date` and
`runtime` are copied verbatim into recommendations and never influence any
computation). -/

/-- A candidate movie dict. -/
structure Movie where
  tmdb_id : ℤ
  title : String
  vote_average : ℚ
  popularity : ℚ
  genres : List String
  deriving Repr, DecidableEq

/-- One entry of `FireTVRecommendationService.profile_configs` (lines
603–644). -/
structure ProfileConfig where
  table_name : String := ""
  preferred_genres : List String := []
  mood_weights : List (String × ℚ) := []
  quality_threshold : ℚ := 0
  popularity_preference : ℚ := 0
  deriving Repr, DecidableEq

/-- `self.profile_configs` (lines 603–644). -/
def profile_configs : List (String × ProfileConfig) :=
  [("anshul",
    { table_name := "anshul_dash"
      preferred_genres := ["Action", "Thriller", "Science Fiction", "Adventure"]
      mood_weights := [("happy", 12/10), ("sad", 8/10), ("excited", 13/10),
        ("calm", 1), ("angry", 11/10), ("romantic", 9/10),
        ("adventurous", 14/10), ("nostalgic", 1)]
      quality_threshold := 7
      popularity_preference := 6/10 }),
   ("shikhar",
    { table_name := "shikhar_dash"
      preferred_genres := ["Comedy", "Drama", "Romance", "Family"]
      mood_weights := [("happy", 13/10), ("sad", 11/10), ("excited", 1),
        ("calm", 12/10), ("angry", 7/10), ("romantic", 14/10),
        ("adventurous", 9/10), ("nostalgic", 12/10)]
      quality_threshold := 65/10
      popularity_preference := 5/10 }),
   ("priyanshu",
    { table_name := "priyanshu_dash"
      preferred_genres := ["Horror", "Mystery", "Adventure", "Thriller"]
      mood_weights := [("happy", 1), ("sad", 1), ("excited", 13/10),
        ("calm", 8/10), ("angry", 12/10), ("romantic", 8/10),
        ("adventurous", 14/10), ("nostalgic", 9/10)]
      quality_threshold := 68/10
      popularity_preference := 4/10 }),
   ("shaurya",
    { table_name := "shaurya_dash"
      preferred_genres := ["Animation", "Family", "Fantasy", "Adventure"]
      mood_weights := [("happy", 14/10), ("sad", 9/10), ("excited", 12/10),
        ("calm", 11/10), ("angry", 8/10), ("romantic", 1),
        ("adventurous", 13/10), ("nostalgic", 11/10)]
      quality_threshold := 72/10
      popularity_preference := 7/10 })]

/-- The user-data dict assembled by `get_user_data_from_backend` (lines
740–751); `time_watched`, `count` and `total_watched` never reach the
scorers and are omitted.  `ratings` maps `str(tmdb_id)` to the numeric
rating. -/
structure UserData where
  user_id : ℤ
  username : String
  user_history : List ℤ
  ratings : List (String × ℚ)
  favourite_genres : List String
  mood : String
  profile_config : ProfileConfig
  deriving Repr, DecidableEq

/-- `profile_config.get('mood_weights', {}).get(mood, 1.0)`. -/
def moodMultiplier (cfg : ProfileConfig) (mood : String) : ℚ :=
  ((cfg.mood_weights).lookup mood).getD 1

/-- `np.mean(list(ratings.values()))`. -/
def ratingsMean (ratings : List (String × ℚ)) : ℚ :=
  qmean (ratings.map (fun kv => kv.2))

/-- A recommendation dict as built by the tiers; as for `Movie`, the fields
that are copied through without influencing any computation are omitted. -/
structure Rec where
  tmdb_id : ℤ
  title : String
  vote_average : ℚ
  popularity : ℚ
  similarity_score : ℚ
  recommendation_reason : String
  deriving Repr, DecidableEq

/-- The ordering demanded by the determinism note of the spec: score
strictly descending, with score ties broken by ascending item id. -/
def recOrder (a b : Rec) : Prop :=
  b.similarity_score < a.similarity_score ∨
    (a.similarity_score = b.similarity_score ∧ a.tmdb_id < b.tmdb_id)

instance : DecidableRel recOrder := fun a b => by
  unfold recOrder
  infer_instance

/-- The relation `sortByScoreDesc` sorts by: score descending, ties kept in
insertion order. -/
def scoreGE (a b : Rec) : Prop := b.similarity_score ≤ a.similarity_score

instance : DecidableRel scoreGE := fun a b => by
  unfold scoreGE
  infer_instance

instance : IsTotal Rec scoreGE :=
  ⟨fun a b => (le_total a.similarity_score b.similarity_score).symm⟩

instance : IsTrans Rec scoreGE :=
  ⟨fun _ _ _ hab hbc => le_trans hbc hab⟩

/-- `recommendations.sort(key=lambda x: x['similarity_score'],
reverse=True)`: Python's stable descending sort, embedded as insertion sort
with the "greater-or-equal score" relation (which keeps ties in their
original order, as CPython's stable sort does). -/
def sortByScoreDesc (l : List Rec) : List Rec :=
  List.insertionSort scoreGE l

/-! ## Simple content tier (lines 1331–1387) -/

/-- The score accumulated by the loop body of
`_generate_simple_content_recommendations`, including the final mood
multiplication but before `min(score, 1.0)` and rounding. -/
def simple_movie_score (ud : UserData) (m : Movie) : ℚ :=
  let favorite_genres := ud.favourite_genres.toFinset
  let s1 : ℚ := if 0 < m.vote_average then m.vote_average / 10 * (4/10) else 28/100
  let s2 : ℚ := if 0 < m.popularity then min (m.popularity / 100) 1 * (2/10) else 1/10
  let s3 : ℚ :=
    if favorite_genres ≠ ∅ then
      ((m.genres.toFinset ∩ favorite_genres).card : ℚ) / favorite_genres.card * (4/10)
    else 2/10
  (s1 + s2 + s3) * moodMultiplier ud.profile_config ud.mood

/-- `FireTVRecommendationService._generate_simple_content_recommendations`. -/
def generate_simple_content_recommendations (ud : UserData)
    (candidates : List Movie) : List Rec :=
  let recommendations :=
    (candidates.filter (fun m => m.tmdb_id ∉ ud.user_history)).map (fun m =>
      { tmdb_id := m.tmdb_id
        title := m.title
        vote_average := m.vote_average
        popularity := m.popularity
        similarity_score := pyRound4 (min (simple_movie_score ud m) 1)
        recommendation_reason :=
          "Simple content-based: genre preferences, mood: " ++ ud.mood })
  (sortByScoreDesc recommendations).take 50

/-! ## Enhanced content tier (lines 1030–1158)

The SentenceTransformer embeddings live outside the repository; the raw
cosine value `np.dot(movie_embedding, user_content_embedding) /
norm_product` is abstracted as an oracle `sem : ℤ → Option ℚ` indexed by
`tmdb_id` (`none` models a missing movie embedding or a zero
`norm_product`, the branches on which `_calculate_content_similarity`
returns `0.5`). -/

/-- `FireTVRecommendationService._calculate_content_similarity`: `0.5` on
any degenerate branch, otherwise the raw cosine clamped by
`max(0, min(1, similarity))`. -/
def calculate_content_similarity (raw : Option ℚ) : ℚ :=
  match raw with
  | none => 1/2
  | some s => max 0 (min 1 s)

/-- `FireTVRecommendationService._calculate_enhanced_movie_score` (lines
1106–1132); `enhanced` is `self.enhanced_content_similarity` and
`hasUserEmb` is `user_content_embedding is not None`. -/
def calculate_enhanced_movie_score (enhanced : Bool) (sem : ℤ → Option ℚ)
    (hasUserEmb : Bool) (ud : UserData) (m : Movie) : ℚ :=
  let s1 : ℚ := if 0 < m.vote_average then m.vote_average / 10 * (3/10) else 0
  let s2 : ℚ := if 0 < m.popularity then min (m.popularity / 100) 1 * (2/10) else 0
  let s3 : ℚ :=
    if enhanced ∧ hasUserEmb then
      calculate_content_similarity (sem m.tmdb_id) * (3/10)
    else 0
  let s4 : ℚ :=
    if ud.ratings ≠ [] then
      max 0 (1 - |m.vote_average - ratingsMean ud.ratings| / 5) * (2/10)
    else 0
  s1 + s2 + s3 + s4

/-- `FireTVRecommendationService.generate_enhanced_content_recommendations`
(lines 1030–1076); `userEmbComputed` abstracts "the call to
`_get_user_content_preferences` returned a non-`None` embedding". -/
def generate_enhanced_content_recommendations (enhanced : Bool)
    (sem : ℤ → Option ℚ) (userEmbComputed : Bool) (ud : UserData)
    (candidates : List Movie) : List Rec :=
  let favorite_genres := ud.favourite_genres.toFinset
  let hasUserEmb := enhanced ∧ ud.user_history ≠ [] ∧ userEmbComputed
  let recommendations :=
    (candidates.filter (fun m => m.tmdb_id ∉ ud.user_history)).map (fun m =>
      let base := calculate_enhanced_movie_score enhanced sem hasUserEmb ud m
      let genre_overlap := (m.genres.toFinset ∩ favorite_genres).card
      let withGenre : ℚ :=
        if favorite_genres ≠ ∅ then
          base + (genre_overlap : ℚ) / favorite_genres.card * (2/10)
        else base
      let score := withGenre * moodMultiplier ud.profile_config ud.mood
      { tmdb_id := m.tmdb_id
        title := m.title
        vote_average := m.vote_average
        popularity := m.popularity
        similarity_score := pyRound4 (min score 1)
        recommendation_reason :=
          "Enhanced content-based: " ++ toString genre_overlap ++
            " genre matches, mood: " ++ ud.mood })
  (sortByScoreDesc recommendations).take 50

/-! ## Collaborative-filtering readiness (lines 1160–1231)

`assess_collaborative_filtering_readiness` reads three aggregates from the
`watched_movies` table (`total_users`, `total_ratings`,
`users_with_enough_ratings`); those SQL results enter the embedding as
parameters. -/

/-- The cold-start thresholds set in `FireTVRecommendationService.__init__`
(lines 598–600). -/
structure CFThresholds where
  min_users_for_cf : ℕ := 4
  min_ratings_per_user : ℕ := 3
  min_total_ratings : ℕ := 15
  deriving Repr, DecidableEq

/-- The failure clauses accumulated by `_get_cf_decision_reason` (lines
1221–1229), in source order, one per failed threshold. -/
def cf_decision_clauses (t : CFThresholds) (total_users total_ratings
    current_user_ratings users_with_enough_ratings : ℕ) : List String :=
  (if total_users < t.min_users_for_cf then
    ["Need " ++ toString t.min_users_for_cf ++ " users (have " ++
      toString total_users ++ ")"]
  else []) ++
  (if total_ratings < t.min_total_ratings then
    ["Need " ++ toString t.min_total_ratings ++ " total ratings (have " ++
      toString total_ratings ++ ")"]
  else []) ++
  (if current_user_ratings < t.min_ratings_per_user then
    ["User needs " ++ toString t.min_ratings_per_user ++ " ratings (has " ++
      toString current_user_ratings ++ ")"]
  else []) ++
  (if users_with_enough_ratings < 2 then
    ["Need more active users with " ++ toString t.min_ratings_per_user ++
      "+ ratings"]
  else [])

/-- `FireTVRecommendationService._get_cf_decision_reason` (lines
1215–1231). -/
def get_cf_decision_reason (t : CFThresholds) (use_cf : Bool)
    (total_users total_ratings current_user_ratings
      users_with_enough_ratings : ℕ) : String :=
  if use_cf then
    "Sufficient data: " ++ toString total_users ++ " users, " ++
      toString total_ratings ++ " ratings, user has " ++
      toString current_user_ratings ++ " ratings"
  else
    "Cold start: " ++
      String.intercalate ", "
        (cf_decision_clauses t total_users total_ratings current_user_ratings
          users_with_enough_ratings)

/-- The dict returned by `assess_collaborative_filtering_readiness` on its
success path (lines 1198–1207). -/
structure CFAssessment where
  use_collaborative : Bool
  total_users : ℕ
  total_ratings : ℕ
  current_user_ratings : ℕ
  users_with_enough_ratings : ℕ
  method : String
  reason : String
  deriving Repr, DecidableEq

/-- `FireTVRecommendationService.assess_collaborative_filtering_readiness`
(lines 1160–1213): the decision logic and reason construction, with the
three SQL aggregates as parameters;
`current_user_ratings = len(user_data.get('ratings', {}))`. -/
def assess_collaborative_filtering_readiness (t : CFThresholds)
    (total_users total_ratings users_with_enough_ratings : ℕ)
    (ud : UserData) : CFAssessment :=
  let current_user_ratings := ud.ratings.length
  let use_collaborative :=
    t.min_users_for_cf ≤ total_users &&
    t.min_total_ratings ≤ total_ratings &&
    2 ≤ users_with_enough_ratings &&
    t.min_ratings_per_user ≤ current_user_ratings
  { use_collaborative := use_collaborative
    total_users := total_users
    total_ratings := total_ratings
    current_user_ratings := current_user_ratings
    users_with_enough_ratings := users_with_enough_ratings
    method := if use_collaborative then "hybrid" else "content-based"
    reason := get_cf_decision_reason t use_collaborative total_users
      total_ratings current_user_ratings users_with_enough_ratings }

/-! ## The cascade: `generate_recommendations` (lines 1233–1316)

The collaborative block (lines 1246–1262) queries the database twice — the
readiness aggregates and the rating matrix — and any exception it raises is
caught; the value the `recommendations` list holds after that block is
therefore a parameter `cfRecs` of the embedding (`[]` when the assessment
said no, when the tier raised, or when it produced nothing).  The two
content tiers are embedded above; the `try/except` around each is modelled
by a flag saying whether the tier raised (in which case it contributes
nothing, exactly as the caught exception leaves `recommendations`
unchanged). -/

/-- One merge block (lines 1270–1274 and 1285–1289): `existing_ids` is the
id set of the accumulated list, computed once before the loop; a new
recommendation is appended while the accumulated length is below 50. -/
def mergeRecommendations (base new : List Rec) : List Rec :=
  let existing_ids := base.map (fun r => r.tmdb_id)
  new.foldl (fun acc rec =>
    if rec.tmdb_id ∉ existing_ids ∧ acc.length < 50 then acc ++ [rec] else acc)
    base

/-- The recommendation dict built by the last-resort block (lines
1300–1311): the fixed "default decent score" `0.7`. -/
def fallbackRec (m : Movie) : Rec where
  tmdb_id := m.tmdb_id
  title := m.title
  vote_average := m.vote_average
  popularity := m.popularity
  similarity_score := 7/10
  recommendation_reason := "Curated high-quality selection"

/-- The "random selection as last resort" block (lines 1295–1311): appends
candidates not in the watch history, in candidate order, with the fixed
score `0.7`, while the accumulated length is below 30. -/
def randomFallbackAppend (ud : UserData) (candidates : List Movie)
    (recs : List Rec) : List Rec :=
  candidates.foldl (fun acc m =>
    if m.tmdb_id ∉ ud.user_history ∧ acc.length < 30 then acc ++ [fallbackRec m]
    else acc) recs

/-- `FireTVRecommendationService.generate_recommendations` (lines
1233–1316) from the point where the candidate list is fixed: the enhanced
tier runs when fewer than 20 recommendations are accumulated, the simple
tier when fewer than 15, the random fallback when fewer than 10, and the
result is truncated to 50. -/
def generate_recommendations (ud : UserData) (candidates : List Movie)
    (cfRecs : List Rec) (enhanced : Bool) (sem : ℤ → Option ℚ)
    (userEmbComputed : Bool) (enhancedRaises simpleRaises : Bool) : List Rec :=
  let recs1 :=
    if cfRecs.length < 20 then
      if enhancedRaises then cfRecs
      else
        mergeRecommendations cfRecs
          (generate_enhanced_content_recommendations enhanced sem
            userEmbComputed ud candidates)
    else cfRecs
  let recs2 :=
    if recs1.length < 15 then
      if simpleRaises then recs1
      else
        mergeRecommendations recs1
          (generate_simple_content_recommendations ud candidates)
    else recs1
  let recs3 :=
    if recs2.length < 10 then randomFallbackAppend ud candidates recs2
    else recs2
  recs3.take 50

/-! ## Concrete example inputs used by witnesses and counterexamples -/

/-- A user profile with one preferred genre, no watch history, and the
service's default (empty) profile configuration, so the mood multiplier is
the fallback `1.0`. -/
def exUser : UserData :=
  { user_id := 1, username := "anshul", user_history := [], ratings := [],
    favourite_genres := ["Action"], mood := "neutral", profile_config := {} }

/-- A candidate with no votes, no popularity and no genres. -/
def exMovie5 : Movie :=
  { tmdb_id := 5, title := "a", vote_average := 0, popularity := 0, genres := [] }

/-- A second such candidate, with a smaller id than `exMovie5`. -/
def exMovie3 : Movie :=
  { tmdb_id := 3, title := "b", vote_average := 0, popularity := 0, genres := [] }

/-- The §8 scenario profile: `preferredCategories = ["Action", "Drama"]`,
`moodWeights = {"excited": 1.2}`, `currentMood = "excited"`. -/
def scenarioUser : UserData :=
  { user_id := 1, username := "anshul", user_history := [], ratings := [],
    favourite_genres := ["Action", "Drama"], mood := "excited",
    profile_config := { mood_weights := [("excited", 12/10)] } }

/-- The §8 scenario candidate: quality 8.0, popularity 50, one matching
genre. -/
def scenarioMovie : Movie :=
  { tmdb_id := 1, title := "x", vote_average := 8, popularity := 50,
    genres := ["Action"] }

/-- The A/B/C rating matrix of the §8 similarity scenario: users 1 (A),
2 (B), 3 (C) over items 1, 2, 3; A and B share ratings only on items 1
and 2. -/
def scenarioMatrix : RatingMatrix where
  users := [1, 2, 3]
  items := [1, 2, 3]
  rating := fun u i =>
    if u = 1 then (if i = 1 then 7 else if i = 2 then 9 else 0)
    else if u = 2 then (if i = 1 then 3 else if i = 2 then 7 else 0)
    else if u = 3 then (if i = 3 then 9 else 0)
    else 0

/-- A cache state holding the profile snapshot of `anshul` and one derived
embedding entry written by `get_user_embeddings` for `anshul`'s database id
`1` (see `user_id_map`). -/
def exCaches : UserCaches ℚ where
  user_data_cache := [(userDataKey "anshul", ⟨1, 0⟩)]
  embedding_cache := [(userEmbKey 1 "d41d8cd98f00b204", ⟨2, 0⟩)]

/-- An empty `tmdb_cache`. -/
def emptyTmdbCache : TmdbCache ℚ := fun _ => none

/-- A user profile holding exactly three ratings. -/
def exRatedUser : UserData :=
  { exUser with ratings := [("11", 7), ("12", 9), ("13", 3)] }

/-! # Theorems -/

/-- C5: for every rating matrix and every pair of distinct users whose set
of commonly rated (non-zero) items has size strictly below the default
`min_common_items = 3`, `calculate_user_similarity` returns exactly `0.0`
regardless of the rating values. -/
theorem user_similarity_zero_below_min_common (M : RatingMatrix) (u1 u2 : ℤ)
    (hne : u1 ≠ u2) (hlt : (commonItems M u1 u2).length < 3) :
    calculate_user_similarity {} M u1 u2 = 0 := by
  unfold calculate_user_similarity
  rw [if_neg hne]
  by_cases hmem : u1 ∉ M.users ∨ u2 ∉ M.users
  · rw [if_pos hmem]
  · rw [if_neg hmem, if_pos hlt]

/-- Witness for C5: the §8 scenario — users A (= 1) and B (= 2) share
ratings only on items 1 and 2, so their similarity is `0.0`. -/
theorem user_similarity_zero_below_min_common_witness :
    (1 : ℤ) ≠ 2 ∧ (commonItems scenarioMatrix 1 2).length < 3 ∧
      calculate_user_similarity {} scenarioMatrix 1 2 = 0 :=
  ⟨by decide, by decide,
    user_similarity_zero_below_min_common scenarioMatrix 1 2 (by decide)
      (by decide)⟩

/-- C4: with the service's thresholds (4 users, 15 total ratings, 2 active
users, 3 ratings for the current user), the assessment enables
collaborative filtering exactly when all four thresholds hold, and whenever
it is disabled the reason string is assembled from one clause per failed
threshold. -/
theorem assess_readiness_thresholds (tu tr uwer : ℕ) (ud : UserData) :
    ((assess_collaborative_filtering_readiness {} tu tr uwer ud).use_collaborative
        = true ↔ 4 ≤ tu ∧ 15 ≤ tr ∧ 2 ≤ uwer ∧ 3 ≤ ud.ratings.length) ∧
    ((assess_collaborative_filtering_readiness {} tu tr uwer ud).use_collaborative
        = false →
      (assess_collaborative_filtering_readiness {} tu tr uwer ud).reason =
        "Cold start: " ++ String.intercalate ", "
          (cf_decision_clauses {} tu tr ud.ratings.length uwer) ∧
      (tu < 4 →
        ("Need " ++ toString 4 ++ " users (have " ++ toString tu ++ ")") ∈
          cf_decision_clauses {} tu tr ud.ratings.length uwer) ∧
      (tr < 15 →
        ("Need " ++ toString 15 ++ " total ratings (have " ++ toString tr ++ ")") ∈
          cf_decision_clauses {} tu tr ud.ratings.length uwer) ∧
      (ud.ratings.length < 3 →
        ("User needs " ++ toString 3 ++ " ratings (has " ++
            toString ud.ratings.length ++ ")") ∈
          cf_decision_clauses {} tu tr ud.ratings.length uwer) ∧
      (uwer < 2 →
        ("Need more active users with " ++ toString 3 ++ "+ ratings") ∈
          cf_decision_clauses {} tu tr ud.ratings.length uwer)) := by
  constructor
  · simp [assess_collaborative_filtering_readiness, Bool.and_eq_true,
      decide_eq_true_eq, and_assoc]
  · intro h
    have hreason :
        (assess_collaborative_filtering_readiness {} tu tr uwer ud).reason =
          "Cold start: " ++ String.intercalate ", "
            (cf_decision_clauses {} tu tr ud.ratings.length uwer) := by
      simp only [assess_collaborative_filtering_readiness] at h ⊢
      rw [get_cf_decision_reason, if_neg (by simp [h])]
    refine ⟨hreason, fun h1 => ?_, fun h2 => ?_, fun h3 => ?_, fun h4 => ?_⟩
    · simp [cf_decision_clauses, h1]
    · simp [cf_decision_clauses, h2]
    · simp [cf_decision_clauses, h3]
    · simp [cf_decision_clauses, h4]

/-- Witness for C4: the §8 scenario `totalUsers = 3` — collaborative
filtering is off and the reason carries the user-count shortfall clause. -/
theorem assess_readiness_thresholds_witness :
    (assess_collaborative_filtering_readiness {} 3 20 2
        exRatedUser).use_collaborative = false ∧
    "Need 4 users (have 3)" ∈ cf_decision_clauses {} 3 20 3 2 ∧
    (assess_collaborative_filtering_readiness {} 3 20 2 exRatedUser).reason =
      "Cold start: Need 4 users (have 3)" := by
  have h := assess_readiness_thresholds 3 20 2 exRatedUser
  have hfalse :
      (assess_collaborative_filtering_readiness {} 3 20 2
        exRatedUser).use_collaborative = false := by
    rcases hb : (assess_collaborative_filtering_readiness {} 3 20 2
        exRatedUser).use_collaborative with _ | _
    · rfl
    · exact absurd (h.1.mp hb) (by decide)
  refine ⟨hfalse, ?_, ?_⟩
  · have := (h.2 hfalse).2.1 (by decide)
    simpa using this
  · have := (h.2 hfalse).1
    simpa using this

/-- The Pearson correlation is symmetric in its two vectors. -/
theorem pearson_comm (xs ys : List ℚ) : pearson xs ys = pearson ys xs := by
  simp only [pearson]
  have hzip : List.zipWith (fun x y => (x - qmean xs) * (y - qmean ys)) xs ys
      = List.zipWith (fun x y => (x - qmean ys) * (y - qmean xs)) ys xs := by
    rw [List.zipWith_comm]
    congr 1
    funext b a
    ring
  rw [hzip, mul_comm ((((xs.map fun x => (x - qmean xs) ^ 2).sum : ℚ) : ℝ))]

/-- The commonly-rated-items selection is symmetric in the two users. -/
theorem commonItems_comm (M : RatingMatrix) (u1 u2 : ℤ) :
    commonItems M u1 u2 = commonItems M u2 u1 := by
  unfold commonItems
  exact List.filter_congr (fun i _ => decide_eq_decide.mpr and_comm)

/-- C6: for every rating matrix and distinct users `u1 ≠ u2`,
`calculate_user_similarity` is symmetric. -/
theorem user_similarity_symm (e : CFEngine) (M : RatingMatrix) (u1 u2 : ℤ)
    (hne : u1 ≠ u2) :
    calculate_user_similarity e M u1 u2 = calculate_user_similarity e M u2 u1 := by
  unfold calculate_user_similarity
  rw [if_neg hne, if_neg hne.symm]
  by_cases hmem : u1 ∉ M.users ∨ u2 ∉ M.users
  · rw [if_pos hmem, if_pos hmem.symm]
  · rw [if_neg hmem,
      if_neg (fun hc : u2 ∉ M.users ∨ u1 ∉ M.users => hmem (Or.symm hc))]
    rw [commonItems_comm M u2 u1]
    by_cases hlen : (commonItems M u1 u2).length < e.min_common_items
    · rw [if_pos hlen, if_pos hlen]
    · rw [if_neg hlen, if_neg hlen]
      exact pearson_comm _ _

/-- Witness for C6: symmetry evaluated on the concrete A/B/C matrix. -/
theorem user_similarity_symm_witness :
    calculate_user_similarity {} scenarioMatrix 1 2 =
      calculate_user_similarity {} scenarioMatrix 2 1 :=
  user_similarity_symm {} scenarioMatrix 1 2 (by decide)

theorem pyRound_nonneg {q : ℚ} (h : 0 ≤ q) : 0 ≤ pyRound q := by
  have hf : (0 : ℤ) ≤ ⌊q⌋ := Int.floor_nonneg.mpr h
  simp only [pyRound]
  split_ifs <;> omega

theorem pyRound_le {q : ℚ} {n : ℤ} (h : q ≤ n) : pyRound q ≤ n := by
  have hf : ⌊q⌋ ≤ n := by
    have hmono := Int.floor_mono h
    rwa [Int.floor_intCast] at hmono
  have hbr : ∀ h1 : ¬(q - ⌊q⌋ < 1 / 2), ⌊q⌋ + 1 ≤ n := by
    intro h1
    rcases lt_or_eq_of_le hf with hlt | heq
    · omega
    · exfalso
      have hq : q ≤ (⌊q⌋ : ℚ) := by
        rw [heq]
        exact_mod_cast h
      have := not_lt.mp h1
      linarith
  simp only [pyRound]
  split_ifs with h1 h2 h3
  · exact hf
  · exact hbr h1
  · exact hf
  · exact hbr h1

theorem pyRound4_nonneg {q : ℚ} (h : 0 ≤ q) : 0 ≤ pyRound4 q := by
  unfold pyRound4
  have h0 : (0 : ℤ) ≤ pyRound (q * 10000) := pyRound_nonneg (by positivity)
  have : (0 : ℚ) ≤ (pyRound (q * 10000) : ℚ) := by exact_mod_cast h0
  positivity

theorem pyRound4_le_one {q : ℚ} (h : q ≤ 1) : pyRound4 q ≤ 1 := by
  unfold pyRound4
  have h10 : q * 10000 ≤ ((10000 : ℤ) : ℚ) := by
    push_cast
    linarith
  have := pyRound_le h10
  rw [div_le_one (by norm_num)]
  exact_mod_cast this

/-- The clamp `max(0, min(10, x))` used by both prediction methods stays in
`[0, 10]`. -/
theorem clamp10_bounds (x : ℝ) : 0 ≤ max 0 (min 10 x) ∧ max 0 (min 10 x) ≤ 10 :=
  ⟨le_max_left 0 _, max_le (by norm_num) ((min_le_left 10 x))⟩

theorem user_based_pred_bounds (e : CFEngine) (M : RatingMatrix) (uid : ℤ)
    (cands : List ℤ) (k : ℕ) :
    ∀ p ∈ get_user_based_recommendations e M uid cands k, 0 ≤ p.2 ∧ p.2 ≤ 10 := by
  intro p hp
  simp only [get_user_based_recommendations] at hp
  split_ifs at hp <;>
    first
      | exact absurd hp (List.not_mem_nil p)
      | (simp only [List.mem_filterMap] at hp
         obtain ⟨a, -, hfa⟩ := hp
         split_ifs at hfa <;>
           first
             | exact Option.noConfusion hfa
             | (rw [Option.some.injEq] at hfa
                rw [← hfa]
                exact clamp10_bounds _))

theorem item_based_pred_bounds (e : CFEngine) (M : RatingMatrix) (uid : ℤ)
    (cands : List ℤ) (k : ℕ) :
    ∀ p ∈ get_item_based_recommendations e M uid cands k, 0 ≤ p.2 ∧ p.2 ≤ 10 := by
  intro p hp
  simp only [get_item_based_recommendations] at hp
  split_ifs at hp <;>
    first
      | exact absurd hp (List.not_mem_nil p)
      | (simp only [List.mem_filterMap] at hp
         obtain ⟨a, -, hfa⟩ := hp
         split_ifs at hfa <;>
           first
             | exact Option.noConfusion hfa
             | (rw [Option.some.injEq] at hfa
                rw [← hfa]
                exact clamp10_bounds _))

theorem calculate_content_similarity_nonneg (raw : Option ℚ) :
    0 ≤ calculate_content_similarity raw := by
  cases raw with
  | none => norm_num [calculate_content_similarity]
  | some s => exact le_max_left 0 _

theorem calculate_content_similarity_le_one (raw : Option ℚ) :
    calculate_content_similarity raw ≤ 1 := by
  cases raw with
  | none => norm_num [calculate_content_similarity]
  | some s => exact max_le (by norm_num) (min_le_left 1 s)

theorem simple_movie_score_nonneg (ud : UserData) (m : Movie)
    (hm : 0 ≤ moodMultiplier ud.profile_config ud.mood) :
    0 ≤ simple_movie_score ud m := by
  simp only [simple_movie_score]
  refine mul_nonneg (add_nonneg (add_nonneg ?_ ?_) ?_) hm
  · split_ifs with h
    · exact mul_nonneg (div_nonneg h.le (by norm_num)) (by norm_num)
    · norm_num
  · split_ifs with h
    · exact mul_nonneg (le_min (div_nonneg h.le (by norm_num)) (by norm_num))
        (by norm_num)
    · norm_num
  · split_ifs with h
    · exact mul_nonneg (div_nonneg (by positivity) (by positivity)) (by norm_num)
    · norm_num

theorem calculate_enhanced_movie_score_nonneg (enhanced : Bool)
    (sem : ℤ → Option ℚ) (hasUserEmb : Bool) (ud : UserData) (m : Movie) :
    0 ≤ calculate_enhanced_movie_score enhanced sem hasUserEmb ud m := by
  simp only [calculate_enhanced_movie_score]
  refine add_nonneg (add_nonneg (add_nonneg ?_ ?_) ?_) ?_
  · split_ifs with h
    · exact mul_nonneg (div_nonneg h.le (by norm_num)) (by norm_num)
    · norm_num
  · split_ifs with h
    · exact mul_nonneg (le_min (div_nonneg h.le (by norm_num)) (by norm_num))
        (by norm_num)
    · norm_num
  · split_ifs with h
    · exact mul_nonneg (calculate_content_similarity_nonneg _) (by norm_num)
    · norm_num
  · split_ifs with h
    · exact mul_nonneg (le_max_left 0 _) (by norm_num)
    · norm_num

theorem simple_content_rec_bounds (ud : UserData) (cands : List Movie)
    (hm : 0 ≤ moodMultiplier ud.profile_config ud.mood) :
    ∀ r ∈ generate_simple_content_recommendations ud cands,
      0 ≤ r.similarity_score ∧ r.similarity_score ≤ 1 := by
  intro r hr
  simp only [generate_simple_content_recommendations, sortByScoreDesc] at hr
  have hr2 := (List.mem_insertionSort _).mp (List.mem_of_mem_take hr)
  rw [List.mem_map] at hr2
  obtain ⟨m, -, hm2⟩ := hr2
  rw [← hm2]
  refine ⟨pyRound4_nonneg (le_min (simple_movie_score_nonneg ud m hm) zero_le_one),
    pyRound4_le_one (min_le_right _ 1)⟩

theorem enhanced_content_rec_bounds (enhanced : Bool) (sem : ℤ → Option ℚ)
    (uec : Bool) (ud : UserData) (cands : List Movie)
    (hm : 0 ≤ moodMultiplier ud.profile_config ud.mood) :
    ∀ r ∈ generate_enhanced_content_recommendations enhanced sem uec ud cands,
      0 ≤ r.similarity_score ∧ r.similarity_score ≤ 1 := by
  intro r hr
  simp only [generate_enhanced_content_recommendations, sortByScoreDesc] at hr
  have hr2 := (List.mem_insertionSort _).mp (List.mem_of_mem_take hr)
  rw [List.mem_map] at hr2
  obtain ⟨m, -, hm2⟩ := hr2
  rw [← hm2]
  have hscore : (0 : ℚ) ≤
      (if ud.favourite_genres.toFinset ≠ ∅ then
        calculate_enhanced_movie_score enhanced sem
            (enhanced ∧ ud.user_history ≠ [] ∧ uec) ud m +
          ((m.genres.toFinset ∩ ud.favourite_genres.toFinset).card : ℚ) /
            (ud.favourite_genres.toFinset.card : ℚ) * (2/10)
      else
        calculate_enhanced_movie_score enhanced sem
          (enhanced ∧ ud.user_history ≠ [] ∧ uec) ud m) *
        moodMultiplier ud.profile_config ud.mood := by
    refine mul_nonneg ?_ hm
    split_ifs with h
    · exact add_nonneg (calculate_enhanced_movie_score_nonneg _ _ _ _ _)
        (mul_nonneg (div_nonneg (by positivity) (by positivity)) (by norm_num))
    · exact calculate_enhanced_movie_score_nonneg _ _ _ _ _
  exact ⟨pyRound4_nonneg (le_min hscore zero_le_one),
    pyRound4_le_one (min_le_right _ 1)⟩

/-- C7: every scoring operation stays inside its documented range — every
predicted rating of the user-based and item-based collaborative methods
lies in `[0, 10]`, and every content score (simple and enhanced tiers, after
the mood multiplier) lies in `[0, 1]`; content scores need the profile's
mood multiplier to be nonnegative, which holds for every shipped profile
configuration (`profile_configs_mood_weights_nonneg`). -/
theorem scores_within_documented_ranges (e : CFEngine) (M : RatingMatrix)
    (uid : ℤ) (candidateIds : List ℤ) (k : ℕ) (ud : UserData)
    (cands : List Movie) (enhanced : Bool) (sem : ℤ → Option ℚ) (uec : Bool)
    (hm : 0 ≤ moodMultiplier ud.profile_config ud.mood) :
    (∀ p ∈ get_user_based_recommendations e M uid candidateIds k,
      0 ≤ p.2 ∧ p.2 ≤ 10) ∧
    (∀ p ∈ get_item_based_recommendations e M uid candidateIds k,
      0 ≤ p.2 ∧ p.2 ≤ 10) ∧
    (∀ r ∈ generate_simple_content_recommendations ud cands,
      0 ≤ r.similarity_score ∧ r.similarity_score ≤ 1) ∧
    (∀ r ∈ generate_enhanced_content_recommendations enhanced sem uec ud cands,
      0 ≤ r.similarity_score ∧ r.similarity_score ≤ 1) :=
  ⟨user_based_pred_bounds e M uid candidateIds k,
    item_based_pred_bounds e M uid candidateIds k,
    simple_content_rec_bounds ud cands hm,
    enhanced_content_rec_bounds enhanced sem uec ud cands hm⟩

unseal Rat.inv Rat.mul in
/-- Every mood weight of every shipped profile configuration is
nonnegative, so the nonnegative-mood-multiplier hypothesis of the range
results holds for every profile of the service. -/
theorem profile_configs_mood_weights_nonneg :
    ∀ p ∈ profile_configs, ∀ w ∈ p.2.mood_weights, 0 ≤ w.2 := by decide

unseal Rat.inv Rat.mul Rat.add Rat.sub in
/-- Witness for C7: the §8 scenario profile and candidate; the simple-tier
recommendation it produces carries the score `0.744 = 93/125`, which the
theorem brackets in `[0, 1]`. -/
theorem scores_within_documented_ranges_witness :
    0 ≤ moodMultiplier scenarioUser.profile_config scenarioUser.mood ∧
    ({ tmdb_id := 1, title := "x", vote_average := 8, popularity := 50,
       similarity_score := 93/125,
       recommendation_reason :=
         "Simple content-based: genre preferences, mood: excited" } : Rec) ∈
      generate_simple_content_recommendations scenarioUser [scenarioMovie] ∧
    (0 : ℚ) ≤ 93/125 ∧ (93/125 : ℚ) ≤ 1 := by
  have hmem :
      ({ tmdb_id := 1, title := "x", vote_average := 8, popularity := 50,
         similarity_score := 93/125,
         recommendation_reason :=
           "Simple content-based: genre preferences, mood: excited" } : Rec) ∈
        generate_simple_content_recommendations scenarioUser [scenarioMovie] := by
    decide
  have h := (scores_within_documented_ranges {} scenarioMatrix 1 [] 15
    scenarioUser [scenarioMovie] false (fun _ => none) false
    (by decide)).2.2.1 _ hmem
  exact ⟨by decide, hmem, h.1, h.2⟩

/-- C8: a `get_tmdb_movie` cache write followed by a lookup of the same
movie id returns the stored payload while `now - createdAt < ttl`, and
reports a miss (falls through to the network fetch) as soon as
`now - createdAt ≥ ttl`, even though the entry is still stored. -/
theorem cache_put_get_ttl {α : Type} (cache : TmdbCache α) (ttl : ℚ)
    (movie_id : ℤ) (v : α) (tPut tGet : ℚ) :
    (tGet - tPut < ttl →
      tmdb_lookup (tmdb_put cache movie_id v tPut) ttl movie_id tGet = some v) ∧
    (ttl ≤ tGet - tPut →
      tmdb_lookup (tmdb_put cache movie_id v tPut) ttl movie_id tGet = none) ∧
    tmdb_put cache movie_id v tPut (movieKey movie_id) = some ⟨v, tPut⟩ := by
  refine ⟨fun h => ?_, fun h => ?_, ?_⟩
  · simp [tmdb_lookup, tmdb_put, is_cache_valid, h]
  · simp [tmdb_lookup, tmdb_put, is_cache_valid, not_lt.mpr h]
  · simp [tmdb_put]

/-- Witness for C8: with the default 24-hour TTL, a value stored at time 0
is returned at time 1 and reported as a miss at time 30, while still being
physically present. -/
theorem cache_put_get_ttl_witness :
    tmdb_lookup (tmdb_put emptyTmdbCache 603 (87/10) 0)
        defaultTtlHours 603 1 = some (87/10) ∧
    tmdb_lookup (tmdb_put emptyTmdbCache 603 (87/10) 0)
        defaultTtlHours 603 30 = none ∧
    tmdb_put emptyTmdbCache 603 (87/10) 0 (movieKey 603) =
      some ⟨87/10, 0⟩ :=
  ⟨(cache_put_get_ttl (fun _ => none) defaultTtlHours 603 (87/10) 0 1).1
      (by norm_num [defaultTtlHours]),
    (cache_put_get_ttl (fun _ => none) defaultTtlHours 603 (87/10) 0 30).2.1
      (by norm_num [defaultTtlHours]),
    (cache_put_get_ttl (fun _ => none) defaultTtlHours 603 (87/10) 0 30).2.2⟩

/-- C9 (code bug): `invalidate_user_cache("anshul")` removes the profile
snapshot, but leaves `anshul`'s derived-embedding entry untouched: the
probe `f"user_emb_{username}"` uses the profile *name*, while
`get_user_embeddings` keys embeddings by the numeric database id
(`user_id_map` maps `anshul` to `1`), so the substring test never
matches. -/
theorem invalidate_user_cache_misses_embeddings :
    user_id_map.lookup "anshul" = some 1 ∧
    (invalidate_user_cache exCaches "anshul").user_data_cache = [] ∧
    (invalidate_user_cache exCaches "anshul").embedding_cache =
      [(userEmbKey 1 "d41d8cd98f00b204", ⟨2, 0⟩)] := by
  refine ⟨by decide, by decide, by decide⟩

/-- C10: `generate_recommendations` is deterministic — two runs over
identical inputs (same profile, candidate set, collaborative-tier state and
tier outcomes) return lists with identical contents in identical order. -/
theorem generate_recommendations_deterministic (ud ud' : UserData)
    (cands cands' : List Movie) (cf cf' : List Rec) (enh enh' : Bool)
    (sem sem' : ℤ → Option ℚ) (uec uec' eR eR' sR sR' : Bool)
    (h1 : ud = ud') (h2 : cands = cands') (h3 : cf = cf') (h4 : enh = enh')
    (h5 : sem = sem') (h6 : uec = uec') (h7 : eR = eR') (h8 : sR = sR') :
    generate_recommendations ud cands cf enh sem uec eR sR =
      generate_recommendations ud' cands' cf' enh' sem' uec' eR' sR' := by
  subst h1 h2 h3 h4 h5 h6 h7 h8
  rfl

/-- Witness for C10: two identical runs on a concrete input. -/
theorem generate_recommendations_deterministic_witness :
    generate_recommendations exUser [exMovie5] [] false (fun _ => none)
        false false false =
      generate_recommendations exUser [exMovie5] [] false (fun _ => none)
        false false false :=
  generate_recommendations_deterministic exUser exUser [exMovie5] [exMovie5]
    [] [] false false (fun _ => none) (fun _ => none) false false false false
    false false rfl rfl rfl rfl rfl rfl rfl rfl

/-- Length of the last-resort loop: starting from at most 30 accumulated
recommendations, it appends every unwatched candidate until the total
reaches 30. -/
theorem fallback_foldl_length (hist : List ℤ) :
    ∀ (cands : List Movie) (acc : List Rec), acc.length ≤ 30 →
      (List.foldl (fun acc m =>
          if m.tmdb_id ∉ hist ∧ acc.length < 30 then acc ++ [fallbackRec m]
          else acc) acc cands).length =
        min (acc.length + (cands.filter (fun m => m.tmdb_id ∉ hist)).length) 30 := by
  intro cands
  induction cands with
  | nil =>
    intro acc h
    simp only [List.foldl_nil, List.filter_nil, List.length_nil, Nat.add_zero]
    omega
  | cons m cs ih =>
    intro acc h
    by_cases hw : m.tmdb_id ∉ hist
    · by_cases hl : acc.length < 30
      · have hstep := ih (acc ++ [fallbackRec m])
          (by simp only [List.length_append, List.length_singleton]; omega)
        rw [List.foldl_cons, if_pos ⟨hw, hl⟩, hstep, List.filter_cons,
          if_pos (by simpa using hw)]
        have hlen : (acc ++ [fallbackRec m]).length = acc.length + 1 := by simp
        rw [hlen]
        simp only [List.length_cons]
        omega
      · rw [List.foldl_cons, if_neg (fun hc => hl hc.2), ih _ h,
          List.filter_cons, if_pos (by simpa using hw)]
        simp only [List.length_cons]
        omega
    · rw [List.foldl_cons, if_neg (fun hc => hw hc.1), ih _ h,
        List.filter_cons, if_neg (by simpa using hw)]

theorem randomFallbackAppend_length (ud : UserData) (cands : List Movie)
    (recs : List Rec) (h : recs.length ≤ 30) :
    (randomFallbackAppend ud cands recs).length =
      min (recs.length +
        (cands.filter (fun m => m.tmdb_id ∉ ud.user_history)).length) 30 :=
  fallback_foldl_length ud.user_history cands recs h

/-- The final stage of the cascade (random fallback plus the cap to 50)
returns at least `min 10 u` entries, where `u` counts the unwatched
candidates. -/
theorem final_stage_min_count (ud : UserData) (cands : List Movie)
    (recs2 : List Rec) :
    min 10 ((cands.filter (fun m => m.tmdb_id ∉ ud.user_history)).length) ≤
      ((if recs2.length < 10 then randomFallbackAppend ud cands recs2
        else recs2).take 50).length := by
  rw [List.length_take]
  by_cases h : recs2.length < 10
  · rw [if_pos h, randomFallbackAppend_length ud cands recs2 (by omega)]
    omega
  · rw [if_neg h]
    omega

/-- C1: for every user profile and non-empty candidate list,
`generate_recommendations` returns at least
`min(10, number of candidates not in the watch history)` recommendations,
whatever the collaborative block left behind and even when the enhanced and
simple content tiers raise (produce nothing). -/
theorem generate_min_recommendation_count (ud : UserData)
    (cands : List Movie) (cfRecs : List Rec) (enhanced : Bool)
    (sem : ℤ → Option ℚ) (uec eR sR : Bool) (hne : cands ≠ []) :
    min 10 ((cands.filter (fun m => m.tmdb_id ∉ ud.user_history)).length) ≤
      (generate_recommendations ud cands cfRecs enhanced sem uec eR sR).length := by
  simp only [generate_recommendations]
  exact final_stage_min_count ud cands _

unseal Rat.inv Rat.mul Rat.add Rat.sub in
/-- Witness for C1: one unwatched candidate, every tier empty — the run
still returns `min 10 1 = 1` recommendation (in fact two, by the
random-fallback duplication). -/
theorem generate_min_recommendation_count_witness :
    ([exMovie3] : List Movie) ≠ [] ∧
    min 10 (([exMovie3].filter
        (fun m => m.tmdb_id ∉ exUser.user_history)).length) ≤
      (generate_recommendations exUser [exMovie3] [] false (fun _ => none)
        false true true).length :=
  ⟨by decide,
    generate_min_recommendation_count exUser [exMovie3] [] false
      (fun _ => none) false true true (by decide)⟩

unseal Rat.inv Rat.mul Rat.add Rat.sub in
/-- C2 counterexample: a concrete run (no collaborative data, enhanced and
simple tiers both succeed, fewer than 10 results) whose returned list is
not sorted by score descending with ties broken by ascending item id: the
random-fallback entries, appended last with score `0.7`, follow the
content entries with score `0`, and the tied content entries keep candidate
order `5, 3` rather than id order. -/
theorem generate_not_sorted_counterexample :
    ¬ List.Pairwise recOrder
      (generate_recommendations exUser [exMovie5, exMovie3] [] false
        (fun _ => none) false false false) := by
  decide

/-- C2 (amended): the returned list is capped to at most 50 entries and
each content tier's own output is sorted by score descending (ties in
insertion order); the merged result is returned in tier order without a
final global re-sort. -/
theorem generate_cap_and_tier_sorting (ud : UserData) (cands : List Movie)
    (cfRecs : List Rec) (enhanced : Bool) (sem : ℤ → Option ℚ)
    (uec eR sR : Bool) :
    (generate_recommendations ud cands cfRecs enhanced sem uec eR sR).length ≤ 50 ∧
    List.Sorted scoreGE (generate_simple_content_recommendations ud cands) ∧
    List.Sorted scoreGE
      (generate_enhanced_content_recommendations enhanced sem uec ud cands) := by
  refine ⟨?_, ?_, ?_⟩
  · simp only [generate_recommendations]
    rw [List.length_take]
    omega
  · simp only [generate_simple_content_recommendations, sortByScoreDesc]
    exact List.Pairwise.sublist (List.take_sublist 50 _)
      (List.sorted_insertionSort scoreGE _)
  · simp only [generate_enhanced_content_recommendations, sortByScoreDesc]
    exact List.Pairwise.sublist (List.take_sublist 50 _)
      (List.sorted_insertionSort scoreGE _)

unseal Rat.inv Rat.mul Rat.add Rat.sub in
/-- C3 (code bug): on a run with a single unwatched candidate and no
collaborative data, the enhanced tier recommends it, the cascade still
holds fewer than 10 entries, and the last-resort block — which checks only
the watch history, not the already-accumulated ids — appends the same
`tmdb_id` again: the returned id list is `[5, 5]`. -/
theorem generate_duplicate_id_bug :
    ((generate_recommendations exUser [exMovie5] [] false (fun _ => none)
        false false false).map (fun r => r.tmdb_id)) = [5, 5] ∧
    ¬ ((generate_recommendations exUser [exMovie5] [] false (fun _ => none)
        false false false).map (fun r => r.tmdb_id)).Nodup := by
  refine ⟨by decide, by decide⟩

end FireTV
